import Mathlib

/-!
Verification of the chat / game-page layer of the fake-stack-overflow
repository: the Express chat controller and chat service, and the React
hooks useGamePage and useDirectMessage. Each TypeScript function is
shallowly embedded as a pure Lean function; database and network effects
become explicit oracle arguments (Except results, Bool failure flags),
and React state updates become explicit state records.
-/

set_option maxHeartbeats 1000000

namespace FakeSO

/-- Payload of a message before it is saved (no database id yet); the
field msgType renders the TS field named type. -/
structure MessageData where
  msg : String
  msgFrom : String
  msgType : String
  deriving Repr, DecidableEq

/-- Server-side message document as stored by MessageModel; the Mongo
ObjectId is modelled as a Nat. -/
structure MessageDoc where
  id : Nat
  msg : String
  msgFrom : String
  msgType : String
  deriving Repr, DecidableEq

/-- Server-side chat document as stored by ChatModel: participants are
usernames / user ids, messages are message-document ids. -/
structure ChatDoc where
  id : String
  participants : List String
  messages : List Nat
  deriving Repr, DecidableEq

/-- Payload of the createChat request body (CreateChatPayload in
types/chat). participants is an Option so that a body whose participants
field is absent or not an array can be represented: none stands for a
missing / non-array value, as tested by Array.isArray. -/
structure CreateChatBody where
  participants : Option (List String)
  messages : List MessageData
  deriving Repr, DecidableEq

/-- CreateChatRequest: the body may be absent (req.body is optional
chaining in the validator). -/
structure CreateChatRequest where
  body : Option CreateChatBody
  deriving Repr, DecidableEq

/-- Body of an addMessage request: msg and msgFrom may be absent. -/
structure AddMessageBody where
  msg : Option String
  msgFrom : Option String
  deriving Repr, DecidableEq

/-- AddMessageRequestToChat: chatId is the :chatId route parameter. -/
structure AddMessageRequest where
  chatId : String
  body : Option AddMessageBody
  deriving Repr, DecidableEq

/-- Body of an addParticipant request. -/
structure AddParticipantBody where
  participantId : Option String
  deriving Repr, DecidableEq

/-- AddParticipantRequest: body may be absent, chatId is the route
parameter which may be absent or empty. -/
structure AddParticipantRequest where
  body : Option AddParticipantBody
  chatId : Option String
  deriving Repr, DecidableEq

/-- Truthiness of an optional string value, as JavaScript computes it:
undefined and the empty string are falsy. -/
def truthyOptStr : Option String → Bool
  | none => false
  | some s => s ≠ ""

/-- isCreateChatRequestValid from the chat controller:
Array.isArray(req.body?.participants) and participants.length > 0. -/
def isCreateChatRequestValid (req : CreateChatRequest) : Bool :=
  match req.body with
  | none => false
  | some b =>
    match b.participants with
    | none => false
    | some ps => ps.length > 0

/-- isAddMessageRequestValid from the chat controller: body, msg and
msgFrom must all be truthy strings. -/
def isAddMessageRequestValid (req : AddMessageRequest) : Bool :=
  match req.body with
  | none => false
  | some b => truthyOptStr b.msg && truthyOptStr b.msgFrom

/-- isAddParticipantRequestValid from the chat controller: body,
participantId and params.chatId must all be truthy strings. -/
def isAddParticipantRequestValid (req : AddParticipantRequest) : Bool :=
  match req.body with
  | none => false
  | some b => truthyOptStr b.participantId && truthyOptStr req.chatId

/-- Kind of HTTP response body a route handler produced: a JSON value,
a JSON object carrying an error field, or a plain-text body (res.send of
a string). -/
inductive BodyKind where
  | json
  | jsonError
  | text
  deriving Repr, DecidableEq

/-- Target of a socket emission: socket.emit reaches all connected
clients, socket.to(room).emit reaches only the named room. -/
inductive EmitTarget where
  | all
  | room (name : String)
  deriving Repr, DecidableEq

/-- Observable outcome of one route-handler invocation: the HTTP status,
the kind of body sent, the database-access functions invoked in order,
and the socket emissions (event name and target). -/
structure RouteResult where
  status : Nat
  body : BodyKind
  dbCalls : List String
  emits : List (String × EmitTarget)
  deriving Repr, DecidableEq

/-- createChatRoute from the chat controller. saveRes is the outcome of
saveChat, popRes the outcome of populateDocument; a populate error is
thrown and lands in the catch branch, which answers 500 with a JSON
error. On success the handler emits chatUpdate with socket.emit, that
is, to all connected clients. -/
def createChatRoute (req : CreateChatRequest)
    (saveRes : Except String ChatDoc) (popRes : Except String ChatDoc) :
    RouteResult :=
  if !isCreateChatRequestValid req then
    { status := 400, body := .jsonError, dbCalls := [], emits := [] }
  else
    match saveRes with
    | .error _ =>
      { status := 500, body := .jsonError, dbCalls := ["saveChat"], emits := [] }
    | .ok _ =>
      match popRes with
      | .error _ =>
        { status := 500, body := .jsonError,
          dbCalls := ["saveChat", "populateDocument"], emits := [] }
      | .ok _ =>
        { status := 200, body := .json,
          dbCalls := ["saveChat", "populateDocument"],
          emits := [("chatUpdate", .all)] }

/-- addMessageToChatRoute from the chat controller. createRes is the
outcome of createMessage (ok none models a saved message whose _id is
undefined), addRes the outcome of addMessageToChat, popRes the outcome
of populateDocument. On success the handler emits chatUpdate with
socket.to(chatId).emit, that is, only to the room named by the chat id. -/
def addMessageToChatRoute (req : AddMessageRequest)
    (createRes : Except String (Option Nat))
    (addRes : Except String ChatDoc) (popRes : Except String ChatDoc) :
    RouteResult :=
  if !isAddMessageRequestValid req then
    { status := 400, body := .jsonError, dbCalls := [], emits := [] }
  else
    match createRes with
    | .error _ =>
      { status := 500, body := .jsonError, dbCalls := ["createMessage"], emits := [] }
    | .ok none =>
      { status := 500, body := .jsonError, dbCalls := ["createMessage"], emits := [] }
    | .ok (some _) =>
      match addRes with
      | .error _ =>
        { status := 500, body := .jsonError,
          dbCalls := ["createMessage", "addMessageToChat"], emits := [] }
      | .ok _ =>
        match popRes with
        | .error _ =>
          { status := 500, body := .jsonError,
            dbCalls := ["createMessage", "addMessageToChat", "populateDocument"],
            emits := [] }
        | .ok _ =>
          { status := 200, body := .json,
            dbCalls := ["createMessage", "addMessageToChat", "populateDocument"],
            emits := [("chatUpdate", .room req.chatId)] }

/-- addParticipantToChatRoute from the chat controller. addRes is the
outcome of addParticipantToChat, popRes the outcome of populateDocument.
On success the handler emits chatUpdate with socket.to(chatId).emit. -/
def addParticipantToChatRoute (req : AddParticipantRequest)
    (addRes : Except String ChatDoc) (popRes : Except String ChatDoc) :
    RouteResult :=
  if !isAddParticipantRequestValid req then
    { status := 400, body := .jsonError, dbCalls := [], emits := [] }
  else
    match addRes with
    | .error _ =>
      { status := 500, body := .jsonError,
        dbCalls := ["addParticipantToChat"], emits := [] }
    | .ok _ =>
      match popRes with
      | .error _ =>
        { status := 500, body := .jsonError,
          dbCalls := ["addParticipantToChat", "populateDocument"], emits := [] }
      | .ok _ =>
        { status := 200, body := .json,
          dbCalls := ["addParticipantToChat", "populateDocument"],
          emits := [("chatUpdate", .room (req.chatId.getD ""))] }

/-- getChatRoute from the chat controller: 400 when the chat id is
falsy, 500 JSON on a getChat error or a populate error (the latter is
thrown and caught), 200 JSON otherwise. -/
def getChatRoute (chatId : String)
    (getRes : Except String ChatDoc) (popRes : Except String ChatDoc) :
    RouteResult :=
  if chatId = "" then
    { status := 400, body := .jsonError, dbCalls := [], emits := [] }
  else
    match getRes with
    | .error _ =>
      { status := 500, body := .jsonError, dbCalls := ["getChat"], emits := [] }
    | .ok _ =>
      match popRes with
      | .error _ =>
        { status := 500, body := .jsonError,
          dbCalls := ["getChat", "populateDocument"], emits := [] }
      | .ok _ =>
        { status := 200, body := .json,
          dbCalls := ["getChat", "populateDocument"], emits := [] }

/-- Whether an Except value is an error. -/
def isErr {α : Type} : Except String α → Bool
  | .error _ => true
  | .ok _ => false

/-- getChatsByParticipants from the chat service: the Mongo find with an
all-of filter is modelled as a filter over the chat collection db, and
dbFail models the find throwing. Every failure is absorbed into an empty
array, and an empty find result is also returned as an empty array. -/
def getChatsByParticipants (db : List ChatDoc) (dbFail : Bool)
    (p : List String) : List ChatDoc :=
  if dbFail then []
  else
    let chats := db.filter fun c => p.all fun x => c.participants.contains x
    if chats.isEmpty then [] else chats

/-- getChatsByUserRoute from the chat controller: 400 when the username
parameter is falsy; otherwise the chats of the user are fetched and each
is populated; if any populate fails the handler throws and its catch
branch answers 500 with res.send of a plain string, not JSON. -/
def getChatsByUserRoute (username : String) (db : List ChatDoc)
    (dbFail : Bool) (pop : String → Except String ChatDoc) : RouteResult :=
  if username = "" then
    { status := 400, body := .jsonError, dbCalls := [], emits := [] }
  else
    let chats := getChatsByParticipants db dbFail [username]
    if chats.any fun c => isErr (pop c.id) then
      { status := 500, body := .text,
        dbCalls := ["getChatsByParticipants", "populateDocument"], emits := [] }
    else
      { status := 200, body := .json,
        dbCalls := ["getChatsByParticipants", "populateDocument"], emits := [] }

/-- CreateChatPayload from types/chat: participants plus full message
objects. -/
structure CreateChatPayload where
  participants : List String
  messages : List MessageData
  deriving Repr, DecidableEq

/-- MessageModel.insertMany: saves each payload message in order,
assigning consecutive fresh ids starting at nextId. -/
def insertMany (nextId : Nat) : List MessageData → List MessageDoc
  | [] => []
  | m :: rest =>
    { id := nextId, msg := m.msg, msgFrom := m.msgFrom, msgType := m.msgType }
      :: insertMany (nextId + 1) rest

/-- Result of saveChat: the message store after the inserts, and the
saved chat document. -/
structure SaveChatResult where
  store : List MessageDoc
  chat : ChatDoc
  deriving Repr, DecidableEq

/-- saveChat from the chat service: messages of the payload are saved
first with insertMany (none when the payload carries no messages), then
the chat document is created with the payload participants and the ids
of the saved messages. nextId is the next fresh message id and chatId
the id Mongo assigns to the new chat document. -/
def saveChat (nextId : Nat) (store : List MessageDoc) (chatId : String)
    (payload : CreateChatPayload) : SaveChatResult :=
  let saved := insertMany nextId payload.messages
  { store := store ++ saved
    chat := { id := chatId
              participants := payload.participants
              messages := saved.map (·.id) } }

/-- Mongo addToSet on an array field: appends the value only when it is
not already present. -/
def addToSet (l : List String) (x : String) : List String :=
  if x ∈ l then l else l ++ [x]

/-- findById over the chat collection: the first chat document with the
given id (Mongo ids are unique, so first is the only one). -/
def findById (db : List ChatDoc) (cid : String) : Option ChatDoc :=
  db.find? fun c => c.id = cid

/-- Applies f to the first chat document with the given id, leaving the
rest of the collection unchanged. -/
def updateById (db : List ChatDoc) (cid : String) (f : ChatDoc → ChatDoc) :
    List ChatDoc :=
  match db with
  | [] => []
  | c :: rest =>
    if c.id = cid then f c :: rest else c :: updateById rest cid f

/-- The update document of addParticipantToChat: addToSet of the user
id on the participants field. -/
def addParticipantFn (userId : String) (x : ChatDoc) : ChatDoc :=
  { x with participants := addToSet x.participants userId }

/-- addParticipantToChat from the chat service: findByIdAndUpdate with
an addToSet of the user id on participants, returning the updated chat
(none models the error branch when the chat is not found) together with
the updated collection. -/
def addParticipantToChat (db : List ChatDoc) (chatId userId : String) :
    Option ChatDoc × List ChatDoc :=
  match findById db chatId with
  | none => (none, db)
  | some c =>
    (some (addParticipantFn userId c),
      updateById db chatId (addParticipantFn userId))

/-- Socket events the chat controller installs listeners for on each
connection; joinChat carries a string chat id, leaveChat may carry an
undefined one, and any other event is untouched by the chat controller. -/
inductive ConnEvent where
  | joinChat (chatID : String)
  | leaveChat (chatID : Option String)
  | otherEvent (name : String)
  deriving Repr, DecidableEq

/-- conn.join: socket.io room membership is a set, so joining a room the
connection is already in changes nothing. -/
def joinRoom (rooms : List String) (r : String) : List String :=
  if r ∈ rooms then rooms else rooms ++ [r]

/-- conn.leave: removes the room from the membership of the connection. -/
def leaveRoom (rooms : List String) (r : String) : List String :=
  rooms.erase r

/-- The connection handler of the chat controller: joinChat joins the
room named by the chat id when that id is truthy, leaveChat leaves it
when the id is truthy, and nothing else changes room membership. -/
def onConnEvent (rooms : List String) : ConnEvent → List String
  | .joinChat cid => if cid ≠ "" then joinRoom rooms cid else rooms
  | .leaveChat ocid =>
    match ocid with
    | some cid => if cid ≠ "" then leaveRoom rooms cid else rooms
    | none => rooms
  | .otherEvent _ => rooms

/-- Client-side view of a user (the _id may be absent on the context
user object). -/
structure ClientUser where
  id : Option String
  username : String
  deriving Repr, DecidableEq

/-- Client-side message as rendered in a chat: text, sender name, and
the populated user object attached when the client appends a message it
just sent. -/
structure ClientMessage where
  msg : String
  msgFrom : String
  user : Option ClientUser
  deriving Repr, DecidableEq

/-- Client-side chat with populated messages; _id may be absent. -/
structure ClientChat where
  id : Option String
  participants : List String
  messages : List ClientMessage
  deriving Repr, DecidableEq

/-- ChatUpdatePayload of the chatUpdate socket event: the carried chat
and the update type string (the TS field named type). -/
structure ChatUpdatePayload where
  chat : ClientChat
  utype : String
  deriving Repr, DecidableEq

/-- The slice of useDirectMessage state that handleChatUpdate reads and
writes: the chat list and the selected chat. -/
structure DMState where
  chats : List ClientChat
  selectedChat : Option ClientChat
  deriving Repr, DecidableEq

/-- handleChatUpdate from useDirectMessage: a created update appends the
carried chat to the chat list; a newMessage update whose chat id equals
the selected chat id appends element 0 of the carried chat messages to
the selected chat (indexing an empty array yields undefined in TS, which
is rendered here as appending nothing via take 1); any other update type
leaves the state unchanged. -/
def handleChatUpdate (st : DMState) (u : ChatUpdatePayload) : DMState :=
  if u.utype = "created" then
    { st with chats := st.chats ++ [u.chat] }
  else if u.utype = "newMessage" then
    match st.selectedChat with
    | some sc =>
      if sc.id = u.chat.id then
        let sc2 : ClientChat :=
          { sc with messages := sc.messages ++ u.chat.messages.take 1 }
        { st with selectedChat := some sc2 }
      else st
    | none => st
  else st

/-- Inner state object of a game instance; only the status field is read
by the game-page hook. -/
structure GameStateInner where
  status : String
  deriving Repr, DecidableEq

/-- GameInstance as read by useGamePage: gameState.state.status. -/
structure GameInstance where
  state : GameStateInner
  deriving Repr, DecidableEq

/-- The useGamePage state read and written by handleLeaveGame. -/
structure GamePageState where
  gameState : Option GameInstance
  joinedGameID : Option String
  error : Option String
  deriving Repr, DecidableEq

/-- Observable outcome of one handleLeaveGame call: the hook state it
leaves behind, whether the leaveGame REST call was made, whether the
leaveGame socket event was emitted, and where it navigated. -/
structure LeaveGameResult where
  state : GamePageState
  apiCalled : Bool
  emitted : Bool
  navigatedTo : String
  deriving Repr, DecidableEq

/-- handleLeaveGame from useGamePage. The REST call and the emission
happen only when a game id is joined (truthy) and a game state exists
whose status is not OVER; the emission additionally requires the awaited
REST call not to throw, which apiOk models. The catch branch sets an
error string, but the unconditional tail then resets gameState,
joinedGameID and error to null and navigates to /games, so the final
state is the same on every path. -/
def handleLeaveGame (st : GamePageState) (apiOk : Bool) : LeaveGameResult :=
  let shouldLeave :=
    truthyOptStr st.joinedGameID &&
      (match st.gameState with
       | some g => !(g.state.status = "OVER" : Bool)
       | none => false)
  { state := { gameState := none, joinedGameID := none, error := none }
    apiCalled := shouldLeave
    emitted := shouldLeave && apiOk
    navigatedTo := "/games" }

/-- Payload the client sends to the sendMessage chat service call; the
msgDateTime field of the TS payload is wall-clock time and is not
modelled. -/
structure MessagePayload where
  chat : String
  msgFrom : String
  msg : String
  deriving Repr, DecidableEq

/-- The useDirectMessage hook state that handleSendMessage can touch. -/
structure DMHookState where
  showCreatePanel : Bool
  chatToCreate : String
  selectedChat : Option ClientChat
  chats : List ClientChat
  newMessage : String
  deriving Repr, DecidableEq

/-- Observable outcome of one handleSendMessage call: the hook state it
leaves behind, whether the REST call was made, and the payload sent. -/
structure SendMessageResult where
  state : DMHookState
  apiCalled : Bool
  sentPayload : Option MessagePayload
  deriving Repr, DecidableEq

/-- The JS String.prototype.trim operation applied to the drafted
message: whitespace is removed from both ends. Embedded over the
character list so that it evaluates by kernel reduction. -/
def jsTrim (s : String) : String :=
  ⟨((s.data.dropWhile Char.isWhitespace).reverse.dropWhile
      Char.isWhitespace).reverse⟩

/-- handleSendMessage from useDirectMessage, parametric in the
sendMessage service call svc (the REST round-trip returning the created
message). The guard mirrors the TS short-circuit: the trimmed draft must
be non-empty, a chat must be selected, and the selected chat and the
user must have truthy ids. On success the payload carries the trimmed
draft, the returned message (augmented with the user object) is appended
to the selected chat, and the draft is cleared. -/
def handleSendMessage (st : DMHookState) (u : ClientUser)
    (svc : MessagePayload → ClientMessage) : SendMessageResult :=
  if jsTrim st.newMessage = "" then
    { state := st, apiCalled := false, sentPayload := none }
  else
    match st.selectedChat with
    | none => { state := st, apiCalled := false, sentPayload := none }
    | some sc =>
      match sc.id with
      | none => { state := st, apiCalled := false, sentPayload := none }
      | some cid =>
        if cid = "" then { state := st, apiCalled := false, sentPayload := none }
        else
          match u.id with
          | none => { state := st, apiCalled := false, sentPayload := none }
          | some uid =>
            if uid = "" then
              { state := st, apiCalled := false, sentPayload := none }
            else
              let payload : MessagePayload :=
                { chat := cid, msgFrom := uid, msg := jsTrim st.newMessage }
              let message := svc payload
              let appended : ClientMessage :=
                { message with
                    user := some { id := some uid, username := u.username } }
              let sc2 : ClientChat :=
                { sc with messages := sc.messages ++ [appended] }
              { state := { st with selectedChat := some sc2, newMessage := "" }
                apiCalled := true
                sentPayload := some payload }

/-- A sample chat document used to instantiate oracles and requests. -/
def exChatDoc : ChatDoc :=
  { id := "c1", participants := ["alice", "bob"], messages := [] }

/-- A createChat request the validator rejects (missing body). -/
def exBadCreateReq : CreateChatRequest := { body := none }

/-- A createChat request the validator accepts. -/
def exGoodCreateReq : CreateChatRequest :=
  { body := some { participants := some ["alice", "bob"], messages := [] } }

/-- An addMessage request the validator rejects (missing body). -/
def exBadAddMsgReq : AddMessageRequest := { chatId := "c1", body := none }

/-- An addMessage request the validator accepts. -/
def exGoodAddMsgReq : AddMessageRequest :=
  { chatId := "c1", body := some { msg := some "hi", msgFrom := some "alice" } }

/-- An addParticipant request the validator rejects (missing body). -/
def exBadAddPartReq : AddParticipantRequest :=
  { body := none, chatId := some "c1" }

/-- An addParticipant request the validator accepts. -/
def exGoodAddPartReq : AddParticipantRequest :=
  { body := some { participantId := some "u2" }, chatId := some "c1" }

/-- An older message already shown in the selected chat. -/
def exMsg1 : ClientMessage := { msg := "first", msgFrom := "alice", user := none }

/-- The newly added message carried last in the updated chat. -/
def exMsg2 : ClientMessage := { msg := "second", msgFrom := "bob", user := none }

/-- The selected chat before the newMessage update arrives. -/
def exSelChat : ClientChat :=
  { id := some "c1", participants := ["alice", "bob"], messages := [exMsg1] }

/-- The populated chat carried by the newMessage update: the previous
message followed by the newly added one. -/
def exUpdChat : ClientChat :=
  { id := some "c1", participants := ["alice", "bob"],
    messages := [exMsg1, exMsg2] }

/-- The useDirectMessage state with exSelChat selected. -/
def exDMState : DMState := { chats := [], selectedChat := some exSelChat }

/-- The newMessage update payload for the selected chat. -/
def exUpd : ChatUpdatePayload := { chat := exUpdChat, utype := "newMessage" }

/-- The game-page state of a joined, still running game. -/
def exGamePageState : GamePageState :=
  { gameState := some { state := { status := "IN_PROGRESS" } }
    joinedGameID := some "g1"
    error := none }

/-- Direct-message hook state ready to send the drafted text. -/
def exSendState : DMHookState :=
  { showCreatePanel := false, chatToCreate := "",
    selectedChat := some exSelChat, chats := [], newMessage := "hello" }

/-- The logged-in user sending the message. -/
def exUser : ClientUser := { id := some "u1", username := "alice" }

/-- A sendMessage service that echoes the payload as the stored
message. -/
def exEcho : MessagePayload → ClientMessage :=
  fun pl => { msg := pl.msg, msgFrom := pl.msgFrom, user := none }

/-- Saved messages carry exactly the payload message data, in order. -/
theorem insertMany_map_data (nextId : Nat) (msgs : List MessageData) :
    (insertMany nextId msgs).map
      (fun d => ({ msg := d.msg, msgFrom := d.msgFrom, msgType := d.msgType } :
        MessageData)) = msgs := by
  induction msgs generalizing nextId with
  | nil => rfl
  | cons m rest ih => simp [insertMany, ih]

/-- C1: for each chat mutation route with a request validator, a
rejected request yields status 400 with a JSON error body, no
database-access call and no socket emission, and an accepted request
leads to a call of the corresponding database-access function (saveChat,
createMessage, addParticipantToChat respectively). -/
theorem c1_validator_gating :
    (∀ (req : CreateChatRequest) (s p : Except String ChatDoc),
      (isCreateChatRequestValid req = false →
        createChatRoute req s p =
          { status := 400, body := .jsonError, dbCalls := [], emits := [] }) ∧
      (isCreateChatRequestValid req = true →
        "saveChat" ∈ (createChatRoute req s p).dbCalls)) ∧
    (∀ (req : AddMessageRequest) (c : Except String (Option Nat))
        (a p : Except String ChatDoc),
      (isAddMessageRequestValid req = false →
        addMessageToChatRoute req c a p =
          { status := 400, body := .jsonError, dbCalls := [], emits := [] }) ∧
      (isAddMessageRequestValid req = true →
        "createMessage" ∈ (addMessageToChatRoute req c a p).dbCalls)) ∧
    (∀ (req : AddParticipantRequest) (a p : Except String ChatDoc),
      (isAddParticipantRequestValid req = false →
        addParticipantToChatRoute req a p =
          { status := 400, body := .jsonError, dbCalls := [], emits := [] }) ∧
      (isAddParticipantRequestValid req = true →
        "addParticipantToChat" ∈ (addParticipantToChatRoute req a p).dbCalls)) := by
  refine ⟨fun req s p => ⟨fun h => ?_, fun h => ?_⟩,
    fun req c a p => ⟨fun h => ?_, fun h => ?_⟩,
    fun req a p => ⟨fun h => ?_, fun h => ?_⟩⟩
  · simp [createChatRoute, h]
  · cases s <;> cases p <;> simp [createChatRoute, h]
  · simp [addMessageToChatRoute, h]
  · cases c with
    | error e => simp [addMessageToChatRoute, h]
    | ok o => cases o <;> cases a <;> cases p <;> simp [addMessageToChatRoute, h]
  · simp [addParticipantToChatRoute, h]
  · cases a <;> cases p <;> simp [addParticipantToChatRoute, h]

/-- Witness for C1 at concrete requests and oracles. -/
theorem c1_validator_gating_witness :
    createChatRoute exBadCreateReq (.ok exChatDoc) (.ok exChatDoc) =
      { status := 400, body := .jsonError, dbCalls := [], emits := [] } ∧
    "saveChat" ∈
      (createChatRoute exGoodCreateReq (.ok exChatDoc) (.ok exChatDoc)).dbCalls ∧
    addMessageToChatRoute exBadAddMsgReq (.ok (some 1)) (.ok exChatDoc)
        (.ok exChatDoc) =
      { status := 400, body := .jsonError, dbCalls := [], emits := [] } ∧
    "createMessage" ∈
      (addMessageToChatRoute exGoodAddMsgReq (.ok (some 1)) (.ok exChatDoc)
        (.ok exChatDoc)).dbCalls ∧
    addParticipantToChatRoute exBadAddPartReq (.ok exChatDoc) (.ok exChatDoc) =
      { status := 400, body := .jsonError, dbCalls := [], emits := [] } ∧
    "addParticipantToChat" ∈
      (addParticipantToChatRoute exGoodAddPartReq (.ok exChatDoc)
        (.ok exChatDoc)).dbCalls :=
  ⟨(c1_validator_gating.1 exBadCreateReq _ _).1 rfl,
   (c1_validator_gating.1 exGoodCreateReq _ _).2 rfl,
   (c1_validator_gating.2.1 exBadAddMsgReq _ _ _).1 rfl,
   (c1_validator_gating.2.1 exGoodAddMsgReq _ _ _).2 rfl,
   (c1_validator_gating.2.2 exBadAddPartReq _ _).1 rfl,
   (c1_validator_gating.2.2 exGoodAddPartReq _ _).2 rfl⟩

/-- C2 counterexample: a valid createChat request with successful
database and populate calls makes the handler emit chatUpdate with
socket.emit, whose target is all connected clients, not a chat room. -/
theorem c2_create_chat_global_emit :
    (createChatRoute exGoodCreateReq (.ok exChatDoc) (.ok exChatDoc)).emits =
      [("chatUpdate", EmitTarget.all)] := rfl

/-- C2 amended: the chatUpdate emissions of addMessageToChatRoute and
addParticipantToChatRoute are room-scoped to the affected chat id, while
createChatRoute broadcasts its chatUpdate to all connected clients. -/
theorem c2_room_scoped_amended :
    (∀ (req : AddMessageRequest) (c : Except String (Option Nat))
        (a p : Except String ChatDoc) (e : String) (t : EmitTarget),
      (e, t) ∈ (addMessageToChatRoute req c a p).emits →
        e = "chatUpdate" ∧ t = EmitTarget.room req.chatId) ∧
    (∀ (req : AddParticipantRequest) (a p : Except String ChatDoc)
        (e : String) (t : EmitTarget),
      (e, t) ∈ (addParticipantToChatRoute req a p).emits →
        e = "chatUpdate" ∧ t = EmitTarget.room (req.chatId.getD "")) ∧
    (∀ (req : CreateChatRequest) (s p : Except String ChatDoc)
        (e : String) (t : EmitTarget),
      (e, t) ∈ (createChatRoute req s p).emits →
        e = "chatUpdate" ∧ t = EmitTarget.all) := by
  refine ⟨fun req c a p e t h => ?_, fun req a p e t h => ?_,
    fun req s p e t h => ?_⟩
  · by_cases hv : isAddMessageRequestValid req
    · cases c with
      | error _ => simp [addMessageToChatRoute, hv] at h
      | ok o =>
        cases o with
        | none => simp [addMessageToChatRoute, hv] at h
        | some _ =>
          cases a with
          | error _ => simp [addMessageToChatRoute, hv] at h
          | ok _ =>
            cases p with
            | error _ => simp [addMessageToChatRoute, hv] at h
            | ok _ =>
              simp [addMessageToChatRoute, hv] at h
              exact ⟨h.1, h.2⟩
    · simp [addMessageToChatRoute, hv] at h
  · by_cases hv : isAddParticipantRequestValid req
    · cases a with
      | error _ => simp [addParticipantToChatRoute, hv] at h
      | ok _ =>
        cases p with
        | error _ => simp [addParticipantToChatRoute, hv] at h
        | ok _ =>
          simp [addParticipantToChatRoute, hv] at h
          exact ⟨h.1, h.2⟩
    · simp [addParticipantToChatRoute, hv] at h
  · by_cases hv : isCreateChatRequestValid req
    · cases s with
      | error _ => simp [createChatRoute, hv] at h
      | ok _ =>
        cases p with
        | error _ => simp [createChatRoute, hv] at h
        | ok _ =>
          simp [createChatRoute, hv] at h
          exact ⟨h.1, h.2⟩
    · simp [createChatRoute, hv] at h

/-- Witness for the amended C2 at a concrete room-scoped emission. -/
theorem c2_room_scoped_amended_witness :
    "chatUpdate" = "chatUpdate" ∧
      EmitTarget.room "c1" = EmitTarget.room exGoodAddMsgReq.chatId :=
  c2_room_scoped_amended.1 exGoodAddMsgReq (.ok (some 1)) (.ok exChatDoc)
    (.ok exChatDoc) "chatUpdate" (EmitTarget.room "c1") (by decide)

/-- C3 counterexample: a populate failure while retrieving the chats of
a user makes getChatsByUserRoute answer 500 with a plain-text body
(res.send of a string), not a JSON error object. -/
theorem c3_plain_text_counterexample :
    getChatsByUserRoute "alice" [exChatDoc] false (fun _ => .error "db down") =
      { status := 500, body := .text,
        dbCalls := ["getChatsByParticipants", "populateDocument"],
        emits := [] } := rfl

/-- C3 amended: every chat route handler answers JSON in all branches,
except getChatsByUserRoute, which answers a plain-text body exactly when
the username is truthy and populating one of the found chats fails. -/
theorem c3_json_responses_amended :
    (∀ (req : CreateChatRequest) (s p : Except String ChatDoc),
      (createChatRoute req s p).body ≠ BodyKind.text) ∧
    (∀ (req : AddMessageRequest) (c : Except String (Option Nat))
        (a p : Except String ChatDoc),
      (addMessageToChatRoute req c a p).body ≠ BodyKind.text) ∧
    (∀ (req : AddParticipantRequest) (a p : Except String ChatDoc),
      (addParticipantToChatRoute req a p).body ≠ BodyKind.text) ∧
    (∀ (chatId : String) (g p : Except String ChatDoc),
      (getChatRoute chatId g p).body ≠ BodyKind.text) ∧
    (∀ (username : String) (db : List ChatDoc) (dbFail : Bool)
        (pop : String → Except String ChatDoc),
      (getChatsByUserRoute username db dbFail pop).body = BodyKind.text ↔
        username ≠ "" ∧
          (getChatsByParticipants db dbFail [username]).any
            (fun c => isErr (pop c.id)) = true) := by
  refine ⟨fun req s p => ?_, fun req c a p => ?_, fun req a p => ?_,
    fun chatId g p => ?_, fun username db dbFail pop => ?_⟩
  · by_cases hv : isCreateChatRequestValid req <;>
      cases s <;> cases p <;> simp [createChatRoute, hv]
  · by_cases hv : isAddMessageRequestValid req
    · cases c with
      | error _ => simp [addMessageToChatRoute, hv]
      | ok o => cases o <;> cases a <;> cases p <;>
          simp [addMessageToChatRoute, hv]
    · simp [addMessageToChatRoute, hv]
  · by_cases hv : isAddParticipantRequestValid req <;>
      cases a <;> cases p <;> simp [addParticipantToChatRoute, hv]
  · by_cases hv : chatId = "" <;>
      cases g <;> cases p <;> simp [getChatRoute, hv]
  · by_cases hu : username = ""
    · simp [getChatsByUserRoute, hu]
    · by_cases hp : (getChatsByParticipants db dbFail [username]).any
        (fun c => isErr (pop c.id)) = true
      · simp [getChatsByUserRoute, hu, hp]
      · simp [getChatsByUserRoute, hu, hp]

/-- Witness for the amended C3: a JSON branch and the plain-text branch
at concrete inputs. -/
theorem c3_json_responses_amended_witness :
    (createChatRoute exGoodCreateReq (.ok exChatDoc) (.ok exChatDoc)).body ≠
      BodyKind.text ∧
    (getChatsByUserRoute "alice" [exChatDoc] false
      (fun _ => .error "db down")).body = BodyKind.text :=
  ⟨c3_json_responses_amended.1 exGoodCreateReq _ _,
   (c3_json_responses_amended.2.2.2.2 "alice" [exChatDoc] false
      (fun _ => .error "db down")).2 ⟨by decide, by decide⟩⟩

/-- C4: saveChat keeps the payload participants verbatim, stores the
payload messages in order, sets the chat message list to exactly the ids
of those stored messages in the same order, and ends with an empty
message list when the payload carries no messages. -/
theorem c4_saveChat_spec :
    ∀ (nextId : Nat) (store : List MessageDoc) (chatId : String)
      (payload : CreateChatPayload),
      (saveChat nextId store chatId payload).chat.participants =
        payload.participants ∧
      (saveChat nextId store chatId payload).store =
        store ++ insertMany nextId payload.messages ∧
      (insertMany nextId payload.messages).map
        (fun d => ({ msg := d.msg, msgFrom := d.msgFrom, msgType := d.msgType } :
          MessageData)) = payload.messages ∧
      (saveChat nextId store chatId payload).chat.messages =
        (insertMany nextId payload.messages).map MessageDoc.id ∧
      (payload.messages = [] →
        (saveChat nextId store chatId payload).chat.messages = []) := by
  intro nextId store chatId payload
  refine ⟨rfl, rfl, insertMany_map_data nextId payload.messages, rfl, ?_⟩
  intro h
  simp [saveChat, h, insertMany]

/-- Witness for C4 at a message-free payload. -/
theorem c4_saveChat_spec_witness :
    (saveChat 7 [] "c9"
      { participants := ["alice", "bob"], messages := [] }).chat.messages = [] :=
  (c4_saveChat_spec 7 [] "c9"
    { participants := ["alice", "bob"], messages := [] }).2.2.2.2 rfl

/-- C5: evaluation at the failing input. The newMessage update for the
selected chat carries the chat with the old message exMsg1 followed by
the newly added exMsg2, but handleChatUpdate appends element 0 of the
carried list, duplicating exMsg1 instead of appending exMsg2. -/
theorem c5_appends_first_not_new :
    (handleChatUpdate exDMState exUpd).selectedChat =
      some { id := some "c1", participants := ["alice", "bob"],
             messages := [exMsg1, exMsg1] } ∧
    exUpd.chat.messages.getLast? = some exMsg2 ∧
    exMsg1 ≠ exMsg2 := by
  refine ⟨rfl, rfl, ?_⟩
  decide

/-- C6 counterexample: with a game joined and not OVER, a failing
leaveGame REST call means the leaveGame socket event is not emitted,
although the claim requires an emission exactly under the joined and
not-OVER condition. -/
theorem c6_no_emit_on_api_failure :
    (handleLeaveGame exGamePageState false).apiCalled = true ∧
    (handleLeaveGame exGamePageState false).emitted = false := by
  constructor <;> rfl

/-- C6 amended: the leaveGame REST call is made exactly when a game id
is joined (truthy) and the game state exists with a status other than
OVER; the leaveGame socket event is emitted exactly when additionally
the REST call succeeds; in every case the game state, the joined game
id and the error are cleared to null and the hook navigates to /games. -/
theorem c6_handleLeaveGame_amended :
    ∀ (st : GamePageState) (apiOk : Bool),
      ((handleLeaveGame st apiOk).apiCalled = true ↔
        (∃ gid, st.joinedGameID = some gid ∧ gid ≠ "") ∧
        (∃ g, st.gameState = some g ∧ g.state.status ≠ "OVER")) ∧
      ((handleLeaveGame st apiOk).emitted = true ↔
        (handleLeaveGame st apiOk).apiCalled = true ∧ apiOk = true) ∧
      (handleLeaveGame st apiOk).state =
        { gameState := none, joinedGameID := none, error := none } ∧
      (handleLeaveGame st apiOk).navigatedTo = "/games" := by
  intro st apiOk
  refine ⟨?_, ?_, rfl, rfl⟩
  · cases hj : st.joinedGameID with
    | none => simp [handleLeaveGame, truthyOptStr, hj]
    | some gid =>
      cases hg : st.gameState with
      | none => simp [handleLeaveGame, truthyOptStr, hj, hg]
      | some g => simp [handleLeaveGame, truthyOptStr, hj, hg, and_comm]
  · simp [handleLeaveGame, Bool.and_eq_true]

/-- Witness for the amended C6 at a joined running game with a
successful REST call. -/
theorem c6_handleLeaveGame_amended_witness :
    (handleLeaveGame exGamePageState true).apiCalled = true ∧
    (handleLeaveGame exGamePageState true).navigatedTo = "/games" :=
  ⟨(c6_handleLeaveGame_amended exGamePageState true).1.mpr
      ⟨⟨"g1", rfl, by decide⟩,
       ⟨{ state := { status := "IN_PROGRESS" } }, rfl, by decide⟩⟩,
   (c6_handleLeaveGame_amended exGamePageState true).2.2.2⟩

/-- C7: on joinChat the connection joins the room named by the chat id
exactly when that id is non-empty, on leaveChat it leaves that room
exactly when the id is defined and non-empty, membership of every other
room is untouched, and no other event changes room membership. The
Nodup hypothesis renders the fact that socket.io room membership is a
set. -/
theorem c7_room_membership :
    ∀ (rooms : List String), rooms.Nodup →
      (∀ cid : String,
        (cid ≠ "" →
          cid ∈ onConnEvent rooms (ConnEvent.joinChat cid) ∧
          ∀ r, r ≠ cid →
            (r ∈ onConnEvent rooms (ConnEvent.joinChat cid) ↔ r ∈ rooms)) ∧
        (cid = "" → onConnEvent rooms (ConnEvent.joinChat cid) = rooms)) ∧
      (∀ ocid : Option String,
        (∀ cid, ocid = some cid → cid ≠ "" →
          cid ∉ onConnEvent rooms (ConnEvent.leaveChat ocid) ∧
          ∀ r, r ≠ cid →
            (r ∈ onConnEvent rooms (ConnEvent.leaveChat ocid) ↔ r ∈ rooms)) ∧
        (truthyOptStr ocid = false →
          onConnEvent rooms (ConnEvent.leaveChat ocid) = rooms)) ∧
      (∀ name, onConnEvent rooms (ConnEvent.otherEvent name) = rooms) := by
  intro rooms hnd
  refine ⟨fun cid => ⟨fun hc => ⟨?_, fun r hr => ?_⟩, fun hc => ?_⟩,
    fun ocid => ⟨fun cid hoc hc => ⟨?_, fun r hr => ?_⟩, fun hoc => ?_⟩,
    fun _ => rfl⟩
  · by_cases hm : cid ∈ rooms <;> simp [onConnEvent, joinRoom, hc, hm]
  · by_cases hm : cid ∈ rooms <;>
      simp [onConnEvent, joinRoom, hc, hm, hr]
  · simp [onConnEvent, hc]
  · subst hoc
    simpa [onConnEvent, leaveRoom, hc] using hnd.not_mem_erase
  · subst hoc
    simpa [onConnEvent, leaveRoom, hc] using List.mem_erase_of_ne hr
  · cases ocid with
    | none => rfl
    | some cid =>
      simp [truthyOptStr] at hoc
      simp [onConnEvent, hoc]

/-- Witness for C7: joining room b from room set a, then leaving it. -/
theorem c7_room_membership_witness :
    "b" ∈ onConnEvent ["a"] (ConnEvent.joinChat "b") ∧
    "a" ∉ onConnEvent ["a", "b"] (ConnEvent.leaveChat (some "a")) :=
  ⟨(((c7_room_membership ["a"] (by decide)).1 "b").1 (by decide)).1,
   ((((c7_room_membership ["a", "b"] (by decide)).2.1 (some "a")).1 "a" rfl
      (by decide))).1⟩

/-- The value is a member after an addToSet. -/
theorem addToSet_mem (l : List String) (x : String) : x ∈ addToSet l x := by
  by_cases h : x ∈ l <;> simp [addToSet, h]

/-- addToSet of a value already present changes nothing. -/
theorem addToSet_of_mem (l : List String) (x : String) (h : x ∈ l) :
    addToSet l x = l := by
  simp [addToSet, h]

/-- addToSet is idempotent. -/
theorem addToSet_idem (l : List String) (x : String) :
    addToSet (addToSet l x) x = addToSet l x :=
  addToSet_of_mem _ _ (addToSet_mem l x)

/-- findById on a cons cell compares the head id first. -/
theorem findById_cons (a : ChatDoc) (rest : List ChatDoc) (cid : String) :
    findById (a :: rest) cid =
      if a.id = cid then some a else findById rest cid := by
  by_cases h : a.id = cid
  · simp [findById, h, List.find?_cons_of_pos]
  · simp only [findById, if_neg h]
    exact List.find?_cons_of_neg _ (by simp [h])

/-- An id-preserving update keeps the updated document findable, now in
its updated form. -/
theorem findById_updateById (cid : String) (f : ChatDoc → ChatDoc)
    (hf : ∀ x, (f x).id = x.id) :
    ∀ (db : List ChatDoc) (c : ChatDoc), findById db cid = some c →
      findById (updateById db cid f) cid = some (f c) := by
  intro db
  induction db with
  | nil => intro c h; simp [findById] at h
  | cons a rest ih =>
    intro c h
    rw [findById_cons] at h
    by_cases ha : a.id = cid
    · rw [if_pos ha] at h
      cases h
      simp [updateById, ha, findById_cons, hf]
    · rw [if_neg ha] at h
      simp [updateById, ha, findById_cons, ih c h]

/-- Updating twice with an id-preserving idempotent function is the same
as updating once. -/
theorem updateById_idem (cid : String) (f : ChatDoc → ChatDoc)
    (hf : ∀ x, (f x).id = x.id) (hff : ∀ x, f (f x) = f x) :
    ∀ db : List ChatDoc,
      updateById (updateById db cid f) cid f = updateById db cid f := by
  intro db
  induction db with
  | nil => rfl
  | cons a rest ih =>
    by_cases ha : a.id = cid
    · simp [updateById, ha, hf, hff]
    · simp [updateById, ha, ih]

/-- Updating with a function that fixes the found document changes
nothing. -/
theorem updateById_eq_self (cid : String) (f : ChatDoc → ChatDoc) :
    ∀ (db : List ChatDoc) (c : ChatDoc), findById db cid = some c →
      f c = c → updateById db cid f = db := by
  intro db
  induction db with
  | nil => intro c h _; simp [findById] at h
  | cons a rest ih =>
    intro c h hfc
    rw [findById_cons] at h
    by_cases ha : a.id = cid
    · rw [if_pos ha] at h
      cases h
      simp [updateById, ha, hfc]
    · rw [if_neg ha] at h
      simp [updateById, ha, ih c h hfc]

/-- C8: addParticipantToChat has set semantics on participants: the
returned chat carries addToSet of the user id, adding an id that is
already a participant returns the chat and the collection unchanged, and
adding the same id twice in a row equals adding it once (same returned
chat, same collection). -/
theorem c8_addParticipant_set_semantics :
    ∀ (db : List ChatDoc) (cid uid : String),
      (∀ c, findById db cid = some c →
        (addParticipantToChat db cid uid).1 =
          some { c with participants := addToSet c.participants uid } ∧
        (uid ∈ c.participants →
          addParticipantToChat db cid uid = (some c, db))) ∧
      addParticipantToChat (addParticipantToChat db cid uid).2 cid uid =
        addParticipantToChat db cid uid := by
  intro db cid uid
  have hf : ∀ x : ChatDoc, (addParticipantFn uid x).id = x.id := fun _ => rfl
  have hff : ∀ x : ChatDoc,
      addParticipantFn uid (addParticipantFn uid x) = addParticipantFn uid x := by
    intro x
    unfold addParticipantFn
    rw [ChatDoc.mk.injEq]
    exact ⟨rfl, addToSet_idem x.participants uid, rfl⟩
  constructor
  · intro c h
    constructor
    · simp [addParticipantToChat, addParticipantFn, h]
    · intro hm
      have hfc : addParticipantFn uid c = c := by
        unfold addParticipantFn
        rw [addToSet_of_mem _ _ hm]
      have hdb := updateById_eq_self cid (addParticipantFn uid) db c h hfc
      simp only [addParticipantToChat, h, hfc, hdb]
  · cases hfind : findById db cid with
    | none => simp [addParticipantToChat, hfind]
    | some c =>
      have h2 := findById_updateById cid (addParticipantFn uid) hf db c hfind
      simp only [addParticipantToChat, hfind, h2]
      rw [Prod.mk.injEq]
      exact ⟨congrArg some (hff c), updateById_idem cid _ hf hff db⟩

/-- Witness for C8: adding an existing participant changes nothing. -/
theorem c8_addParticipant_set_semantics_witness :
    addParticipantToChat [exChatDoc] "c1" "alice" = (some exChatDoc, [exChatDoc]) :=
  ((c8_addParticipant_set_semantics [exChatDoc] "c1" "alice").1 exChatDoc
    rfl).2 (by decide)

/-- C9: getChatsByParticipants always returns an array: the empty one
whenever the database lookup fails, the filter of the collection by
containment of all given participants when the lookup succeeds, and in
particular the empty one when no chat contains all the given
participants. -/
theorem c9_getChatsByParticipants_total :
    ∀ (db : List ChatDoc) (dbFail : Bool) (p : List String),
      (dbFail = true → getChatsByParticipants db dbFail p = []) ∧
      (dbFail = false →
        getChatsByParticipants db dbFail p =
          db.filter fun c => p.all fun x => c.participants.contains x) ∧
      ((db.filter fun c => p.all fun x => c.participants.contains x) = [] →
        getChatsByParticipants db dbFail p = []) := by
  intro db dbFail p
  refine ⟨fun h => by simp [getChatsByParticipants, h], fun h => ?_, fun h => ?_⟩
  · subst h
    show (if (db.filter fun c => p.all fun x => c.participants.contains x).isEmpty
        then ([] : List ChatDoc)
        else db.filter fun c => p.all fun x => c.participants.contains x) =
      db.filter fun c => p.all fun x => c.participants.contains x
    split
    next he =>
      rw [List.isEmpty_iff] at he
      rw [he]
    next => rfl
  · cases dbFail with
    | true => rfl
    | false =>
      show (if (db.filter fun c => p.all fun x => c.participants.contains x).isEmpty
          then ([] : List ChatDoc)
          else db.filter fun c => p.all fun x => c.participants.contains x) = []
      rw [h]
      rfl

/-- Witness for C9: a failing lookup and a participant nobody has. -/
theorem c9_getChatsByParticipants_total_witness :
    getChatsByParticipants [exChatDoc] true ["alice"] = [] ∧
    getChatsByParticipants [exChatDoc] false ["carol"] = [] :=
  ⟨(c9_getChatsByParticipants_total [exChatDoc] true ["alice"]).1 rfl,
   (c9_getChatsByParticipants_total [exChatDoc] false ["carol"]).2.2 (by decide)⟩

/-- C10: handleSendMessage is a no-op (no REST call, identical state)
unless the trimmed draft is non-empty, a chat is selected, and the
selected chat and the user both have truthy ids; when all hold, the REST
call is made with the trimmed draft as message text, the service reply
augmented with the user object is appended to the selected chat, the
draft is cleared, and no other state field changes; when the service
echoes the message text, the appended message carries the trimmed
draft. -/
theorem c10_handleSendMessage_spec :
    ∀ (st : DMHookState) (u : ClientUser)
      (svc : MessagePayload → ClientMessage),
      (jsTrim st.newMessage = "" ∨ st.selectedChat = none ∨
        (∀ sc, st.selectedChat = some sc → truthyOptStr sc.id = false) ∨
        truthyOptStr u.id = false →
        handleSendMessage st u svc =
          { state := st, apiCalled := false, sentPayload := none }) ∧
      (∀ sc cid uid, jsTrim st.newMessage ≠ "" → st.selectedChat = some sc →
        sc.id = some cid → cid ≠ "" → u.id = some uid → uid ≠ "" →
        (handleSendMessage st u svc).apiCalled = true ∧
        (handleSendMessage st u svc).sentPayload =
          some { chat := cid, msgFrom := uid, msg := jsTrim st.newMessage } ∧
        (handleSendMessage st u svc).state.newMessage = "" ∧
        (handleSendMessage st u svc).state.selectedChat =
          some { sc with messages := sc.messages ++
            [{ (svc { chat := cid, msgFrom := uid, msg := jsTrim st.newMessage })
                with
                user := some { id := some uid, username := u.username } }] } ∧
        (handleSendMessage st u svc).state.chats = st.chats ∧
        (handleSendMessage st u svc).state.showCreatePanel =
          st.showCreatePanel ∧
        (handleSendMessage st u svc).state.chatToCreate = st.chatToCreate ∧
        ((svc { chat := cid, msgFrom := uid, msg := jsTrim st.newMessage }).msg =
            jsTrim st.newMessage →
          ∃ tail, (handleSendMessage st u svc).state.selectedChat =
              some { sc with messages := sc.messages ++ [tail] } ∧
            tail.msg = jsTrim st.newMessage)) := by
  intro st u svc
  constructor
  · intro h
    by_cases h1 : jsTrim st.newMessage = ""
    · simp [handleSendMessage, h1]
    · cases hsel : st.selectedChat with
      | none => simp [handleSendMessage, h1, hsel]
      | some sc =>
        cases hid : sc.id with
        | none => simp [handleSendMessage, h1, hsel, hid]
        | some cid =>
          by_cases h2 : cid = ""
          · simp [handleSendMessage, h1, hsel, hid, h2]
          · cases hu : u.id with
            | none => simp [handleSendMessage, h1, hsel, hid, h2, hu]
            | some uid =>
              by_cases h3 : uid = ""
              · simp [handleSendMessage, h1, hsel, hid, h2, hu, h3]
              · exfalso
                rcases h with h | h | h | h
                · exact h1 h
                · rw [hsel] at h; cases h
                · have hh := h sc hsel
                  rw [hid] at hh
                  simp [truthyOptStr, decide_eq_false_iff_not] at hh
                  exact h2 hh
                · rw [hu] at h
                  simp [truthyOptStr, decide_eq_false_iff_not] at h
                  exact h3 h
  · intro sc cid uid h1 hsel hid h2 hu h3
    have key : handleSendMessage st u svc =
        { state := { st with
            selectedChat := some { sc with messages := sc.messages ++
              [{ (svc { chat := cid, msgFrom := uid, msg := jsTrim st.newMessage })
                  with
                  user := some { id := some uid, username := u.username } }] }
            newMessage := "" }
          apiCalled := true
          sentPayload :=
            some { chat := cid, msgFrom := uid, msg := jsTrim st.newMessage } } := by
      simp [handleSendMessage, h1, hsel, hid, h2, hu, h3]
    refine ⟨by rw [key], by rw [key], by rw [key], by rw [key],
      by rw [key], by rw [key], by rw [key], ?_⟩
    intro he
    refine ⟨{ (svc { chat := cid, msgFrom := uid, msg := jsTrim st.newMessage })
        with user := some { id := some uid, username := u.username } },
      ?_, ?_⟩
    · rw [key]
    · exact he

/-- Witness for C10 at a concrete draft, chat and user. -/
theorem c10_handleSendMessage_spec_witness :
    (handleSendMessage exSendState exUser exEcho).apiCalled = true ∧
    (handleSendMessage exSendState exUser exEcho).sentPayload =
      some { chat := "c1", msgFrom := "u1", msg := "hello" } :=
  ⟨((c10_handleSendMessage_spec exSendState exUser exEcho).2 exSelChat "c1" "u1"
      (by decide) rfl rfl (by decide) rfl (by decide)).1,
   ((c10_handleSendMessage_spec exSendState exUser exEcho).2 exSelChat "c1" "u1"
      (by decide) rfl rfl (by decide) rfl (by decide)).2.1⟩

end FakeSO
